import Mathlib

set_option maxRecDepth 100000

/-!
Verification development for the esphome-p1mini component.

The repository ships two Python files of configuration-schema and
code-generation glue (`components/p1_mini/__init__.py` and
`components/p1_mini/sensor/__init__.py`); those are embedded directly below.
The runtime core (line reading, OBIS parsing, CRC validation, dispatch and
the session state machine) is consumed by that glue but its code is not part
of the provided sources, so it is modelled from the specification text.
-/

/-- Modelled from the spec: error kinds of the runtime core (spec section 7),
whose code is not among the provided sources. -/
inductive ErrorKind where
  | LineTooLong
  | MalformedLine
  | Timeout
  | ChecksumError
deriving DecidableEq, Repr

/-- Modelled from the spec: one update step of CRC16/ARC (polynomial 0xA001,
bit-reflected), processing a single byte. -/
def crc16Step (crc b : Nat) : Nat :=
  (List.range 8).foldl
    (fun c _ => if c % 2 = 1 then Nat.xor (c / 2) 0xA001 else c / 2)
    (Nat.xor crc (b % 256))

/-- Modelled from the spec: CRC16/ARC over a byte sequence, initial value 0. -/
def crc16 (bytes : List Nat) : Nat := bytes.foldl crc16Step 0

/-- Modelled from the spec: a telegram is the ordered sequence of raw lines
collected between the start marker and the end marker, together with the
checksum claimed by the four hex digits after the end marker. -/
structure Telegram where
  lines : List String
  checksum : Nat
deriving DecidableEq, Repr

/-- Modelled from the spec: the bytes covered by the CRC, from (and including)
the start marker through the checksum-prefix byte. -/
def telegramBytes (t : Telegram) : List Nat :=
  ("/" ++ String.join (t.lines.map (fun l => l ++ "\r\n")) ++ "!").toList.map Char.toNat

/-- Modelled from the spec: checksum validation compares the computed CRC16
with the checksum claimed by the telegram. -/
def checksumValid (t : Telegram) : Bool :=
  crc16 (telegramBytes t) == t.checksum

/-- Modelled from the spec: one raw value token of a data field, split at the
star into the value proper and an optional unit. -/
structure ObisValue where
  value : String
  unit : Option String
deriving DecidableEq, Repr

/-- Modelled from the spec: one parsed OBIS record, with its code and the
ordered sequence of value tokens. -/
structure DataField where
  code : String
  values : List ObisValue
deriving DecidableEq, Repr

/-- Modelled from the spec: consume a non-empty run of digits. -/
def parseNum (cs : List Char) : Option (List Char × List Char) :=
  let ds := cs.takeWhile Char.isDigit
  if ds.isEmpty then none else some (ds, cs.drop ds.length)

/-- Modelled from the spec: consume an expected punctuation character. -/
def parseChar (c : Char) (cs : List Char) : Option (List Char) :=
  match cs with
  | x :: rest => if x = c then some rest else none
  | [] => none

/-- Modelled from the spec: consume an OBIS code in the numeric-dotted
A-B:C.D.E form, returning the code string and the remaining characters. -/
def parseObisCode (cs : List Char) : Option (String × List Char) :=
  match parseNum cs with
  | none => none
  | some (a, r1) =>
  match parseChar '-' r1 with
  | none => none
  | some r2 =>
  match parseNum r2 with
  | none => none
  | some (b, r3) =>
  match parseChar ':' r3 with
  | none => none
  | some r4 =>
  match parseNum r4 with
  | none => none
  | some (c, r5) =>
  match parseChar '.' r5 with
  | none => none
  | some r6 =>
  match parseNum r6 with
  | none => none
  | some (d, r7) =>
  match parseChar '.' r7 with
  | none => none
  | some r8 =>
  match parseNum r8 with
  | none => none
  | some (e, r9) =>
    some ((a ++ ['-'] ++ b ++ [':'] ++ c ++ ['.'] ++ d ++ ['.'] ++ e).asString, r9)

/-- Modelled from the spec: split a raw group token at the star into value and
optional unit. -/
def splitValue (s : String) : ObisValue :=
  let l := s.toList
  let v := l.takeWhile (fun c => c ≠ '*')
  match l.dropWhile (fun c => c ≠ '*') with
  | '*' :: u => ⟨v.asString, some u.asString⟩
  | _ => ⟨v.asString, none⟩

/-- Modelled from the spec: collect the parenthesised value groups following
the code; tolerant of absent groups and of trailing garbage. The fuel bounds
the recursion by the input length. -/
def parseGroupsAux : Nat → List Char → List String
  | 0, _ => []
  | fuel + 1, cs =>
    match cs with
    | '(' :: rest =>
      let inside := rest.takeWhile (fun c => c ≠ ')')
      match rest.dropWhile (fun c => c ≠ ')') with
      | ')' :: more => inside.asString :: parseGroupsAux fuel more
      | _ => []
    | _ => []

/-- Modelled from the spec: the value groups of a line remainder. -/
def parseGroups (cs : List Char) : List String :=
  parseGroupsAux cs.length cs

/-- Modelled from the spec: the OBIS parser. Grammar code(value1)(value2)...;
fails with MalformedLine exactly when the code pattern is absent; missing
value groups yield a field with an empty value list. -/
def parseLineChars (cs : List Char) : Except ErrorKind DataField :=
  match parseObisCode cs with
  | none => .error .MalformedLine
  | some (code, rest) => .ok ⟨code, (parseGroups rest).map splitValue⟩

/-- Modelled from the spec: the OBIS parser on a string line. -/
def parseLine (l : String) : Except ErrorKind DataField :=
  parseLineChars l.toList

/-- Modelled from the spec: re-encode a data field as an OBIS line, used to
state the encode-then-parse round trip. -/
def encodeField (f : DataField) : String :=
  f.code ++ String.join (f.values.map (fun v =>
    "(" ++ v.value ++ (match v.unit with | some u => "*" ++ u | none => "") ++ ")"))

/-- Modelled from the spec: a registered interest in one OBIS code, with the
last-known value, last-update timestamp and dirty flag. -/
structure Subscriber where
  code : String
  lastValue : Option String
  lastUpdate : Option Nat
  dirty : Bool
deriving DecidableEq, Repr

/-- Modelled from the spec: the data fields of the lines of a telegram;
lines without an OBIS code are decorative and skipped. -/
def telegramFields (t : Telegram) : List DataField :=
  t.lines.filterMap (fun l => (parseLine l).toOption)

/-- Modelled from the spec: the OBIS codes appearing in a telegram. -/
def telegramCodes (t : Telegram) : List String :=
  (telegramFields t).map DataField.code

/-- Modelled from the spec: the first data field of the telegram carrying the
given code. -/
def findField (t : Telegram) (c : String) : Option DataField :=
  (telegramFields t).find? (fun f => f.code == c)

/-- Modelled from the spec: the parsed value of a data field (first token). -/
def fieldValue (f : DataField) : String :=
  match f.values with
  | [] => ""
  | v :: _ => v.value

/-- Modelled from the spec: dispatch to one subscriber — when a field of the
telegram matches its code, the value, timestamp and dirty flag are updated;
otherwise the subscriber is untouched. -/
def dispatchSub (t : Telegram) (now : Nat) (s : Subscriber) : Subscriber :=
  match findField t s.code with
  | some f => { s with lastValue := some (fieldValue f), lastUpdate := some now, dirty := true }
  | none => s

/-- Modelled from the spec: the report of matched subscriber codes of a
dispatch cycle. -/
def matchedCodes (subs : List Subscriber) (t : Telegram) : List String :=
  (subs.filter (fun s => (findField t s.code).isSome)).map Subscriber.code

/-- Modelled from the spec: the session states (spec section 3). -/
inductive SessionState where
  | Idle
  | AwaitingStart
  | Collecting
  | Validating
  | Dispatching
  | Error
deriving DecidableEq, Repr

/-- Modelled from the spec: the successor in the strictly sequential cycle;
Error returns to Idle. -/
def seqNext : SessionState → SessionState
  | .Idle => .AwaitingStart
  | .AwaitingStart => .Collecting
  | .Collecting => .Validating
  | .Validating => .Dispatching
  | .Dispatching => .Idle
  | .Error => .Idle

/-- Modelled from the spec: events fired by the session state machine. -/
inductive Event where
  | readyToReceive
  | updateReceived (matched : List String)
  | communicationError (k : ErrorKind)
deriving DecidableEq, Repr

/-- Modelled from the spec: the P1Mini runtime component state — configured
minimum period (milliseconds, cf. the generated constructor call) and
secondary-P1 flag, current session state, completion time of the last cycle,
the pending request signal, the telegram under collection and the registered
subscribers. -/
structure P1Mini where
  minimumPeriodMs : Nat
  secondaryP1 : Bool
  state : SessionState
  lastCycleEnd : Nat
  requested : Bool
  pending : Telegram
  subs : List Subscriber
deriving DecidableEq, Repr

/-- Modelled from the spec: inputs driving the single-threaded control loop —
elapsed-time checks, framing markers and lines from the line reader, the
secondary-mode request signal, and error signals from the lower layers. -/
inductive SessionInput where
  | tick (now : Nat)
  | startMarker (now : Nat)
  | dataLine (l : String)
  | endMarker (checksum : Nat) (now : Nat)
  | request
  | failure (k : ErrorKind) (now : Nat)
deriving DecidableEq, Repr

/-- Modelled from the spec: one step of the session state machine (spec
sections 4.3, 4.5, 7). Idle waits out the minimum period (and, in secondary
mode, the request signal) before entering AwaitingStart and firing
ready-to-receive; telegram starts are rejected while Idle. Validating checks
the CRC: on mismatch the machine enters Error firing a ChecksumError
communication-error, leaving the subscribers untouched. Dispatching updates
the subscribers and fires update-received. Error returns to Idle once the
minimum period has elapsed. An error signal moves any state to Error firing
the communication-error event. -/
def step (m : P1Mini) (i : SessionInput) : P1Mini × List Event :=
  match i with
  | .request => ({ m with requested := true }, [])
  | .failure k now => ({ m with state := .Error, lastCycleEnd := now }, [.communicationError k])
  | .tick now =>
    match m.state with
    | .Idle =>
      if m.lastCycleEnd + m.minimumPeriodMs ≤ now ∧ (m.secondaryP1 = false ∨ m.requested = true) then
        ({ m with state := .AwaitingStart, requested := false }, [.readyToReceive])
      else (m, [])
    | .Validating =>
      if checksumValid m.pending then
        ({ m with state := .Dispatching }, [])
      else
        ({ m with state := .Error, lastCycleEnd := now }, [.communicationError .ChecksumError])
    | .Dispatching =>
      let subs2 := m.subs.map (dispatchSub m.pending now)
      ({ m with state := .Idle, subs := subs2, lastCycleEnd := now },
       [.updateReceived (matchedCodes m.subs m.pending)])
    | .Error =>
      if m.lastCycleEnd + m.minimumPeriodMs ≤ now then ({ m with state := .Idle }, [])
      else (m, [])
    | _ => (m, [])
  | .startMarker _ =>
    match m.state with
    | .AwaitingStart => ({ m with state := .Collecting, pending := ⟨[], 0⟩ }, [])
    | _ => (m, [])
  | .dataLine l =>
    match m.state with
    | .Collecting => ({ m with pending := ⟨m.pending.lines ++ [l], m.pending.checksum⟩ }, [])
    | _ => (m, [])
  | .endMarker c _ =>
    match m.state with
    | .Collecting => ({ m with state := .Validating, pending := ⟨m.pending.lines, c⟩ }, [])
    | _ => (m, [])

/-- A time period as produced by the esphome time-period validator; stored
normalised as a count of milliseconds. The generated constructor call reads
the total_milliseconds property. -/
structure TimePeriod where
  total_milliseconds : Nat
deriving DecidableEq, Repr

/-- Read a digit run as a natural number. -/
def digitsToNat (ds : List Char) : Nat :=
  ds.foldl (fun acc c => acc * 10 + (c.toNat - 48)) 0

/-- Modelled from the spec: the esphome library validator cv.time_period
(library code, not among the provided sources) parses a duration literal such
as 0s, 150ms, 2min or 1h into a time period. -/
def time_period (s : String) : Option TimePeriod :=
  let cs := s.toList
  let ds := cs.takeWhile Char.isDigit
  if ds.isEmpty then none else
  let n := digitsToNat ds
  match (cs.drop ds.length).asString with
  | "ms" => some ⟨n⟩
  | "s" => some ⟨n * 1000⟩
  | "min" => some ⟨n * 60000⟩
  | "h" => some ⟨n * 3600000⟩
  | _ => none

/-- A Python configuration value, as far as the embedded validators need to
distinguish inputs. -/
inductive PyValue where
  | str (s : String)
  | intVal (n : Int)
  | boolVal (b : Bool)
  | listVal
  | dictVal
  | noneVal
deriving DecidableEq, Repr

/-- Modelled from the spec: the esphome library validator cv.string (library
code, not among the provided sources) — rejects dictionaries, lists, booleans
and None, returns a string unchanged and stringifies other scalars. -/
def cv_string : PyValue → Except String String
  | .str s => .ok s
  | .dictVal => .error "string value cannot be dictionary"
  | .listVal => .error "string value cannot be list"
  | .boolVal _ => .error "string value cannot be boolean"
  | .noneVal => .error "string value is None"
  | .intVal n => .ok (toString n)

/-- The obis_code validator of components/p1_mini/init.py lines 70-75: it
applies cv.string and returns the value; the dotted-numeric OBIS pattern
check is commented out in the source. -/
def obis_code (value : PyValue) : Except String String :=
  cv_string value

/-- A raw (pre-validation) component configuration: each optional key is
present or absent; the minimum period is the raw duration literal. -/
structure RawComponentConfig where
  id : String
  secondary_p1 : Option Bool
  minimum_period : Option String
  on_ready_to_receive : Option (List String)
  on_update_received : Option (List String)
  on_communication_error : Option (List String)
deriving DecidableEq, Repr

/-- A validated component configuration, as consumed by to_code. The
automation lists stay optional because to_code reads them with a
config.get default. -/
structure ComponentConfig where
  id : String
  secondary_p1 : Bool
  minimum_period : TimePeriod
  on_ready_to_receive : Option (List String)
  on_update_received : Option (List String)
  on_communication_error : Option (List String)
deriving DecidableEq, Repr

/-- The component CONFIG_SCHEMA of components/p1_mini/init.py lines 25-44:
secondary_p1 is optional with default False under cv.boolean, minimum_period
is optional with default 0s under cv.time_period, and the three automation
lists are optional with no default. -/
def validateComponentConfig (raw : RawComponentConfig) : Option ComponentConfig :=
  match time_period (raw.minimum_period.getD "0s") with
  | none => none
  | some tp =>
    some { id := raw.id
           secondary_p1 := raw.secondary_p1.getD false
           minimum_period := tp
           on_ready_to_receive := raw.on_ready_to_receive
           on_update_received := raw.on_update_received
           on_communication_error := raw.on_communication_error }

/-- A raw (pre-validation) sensor configuration. The timeout key belongs to
the base sensor schema. -/
structure RawSensorConfig where
  id : String
  p1_mini_id : String
  obis_code : Option PyValue
  timeout : Option String
deriving DecidableEq, Repr

/-- A validated sensor configuration. -/
structure SensorConfig where
  id : String
  p1_mini_id : String
  obis_code : String
  timeout : Option String
deriving DecidableEq, Repr

/-- The sensor CONFIG_SCHEMA of components/p1_mini/sensor/init.py lines
13-19: the base sensor schema extended with a generated id, a generated
p1_mini_id and a required obis_code validated by plain cv.string. The
timeout key is modelled from the spec as the externally supplied staleness
option of the base schema (library code, not among the provided sources) and
passes through unchanged. -/
def validateSensorConfig (raw : RawSensorConfig) : Option SensorConfig :=
  match raw.obis_code with
  | none => none
  | some v =>
    match cv_string v with
    | .error _ => none
    | .ok c =>
      some { id := raw.id
             p1_mini_id := raw.p1_mini_id
             obis_code := c
             timeout := raw.timeout }

/-- The code-generation statements emitted by the two to_code functions, one
constructor per generated call. -/
inductive CodegenStmt where
  | newP1Mini (id : String) (minPeriodMs : Nat) (secondary : Bool)
  | registerComponent (id : String)
  | registerUartDevice (id : String)
  | newTrigger (id : String)
  | registerReadyToReceiveTrigger (id : String)
  | registerUpdateReceivedTrigger (id : String)
  | registerCommunicationErrorTrigger (id : String)
  | buildAutomation (id : String)
  | newP1MiniSensor (id : String) (code : String)
  | registerSensorEntity (id : String)
  | registerSensor (sensorId : String)
deriving DecidableEq, Repr

/-- The component to_code of components/p1_mini/init.py lines 46-68: it
constructs the P1Mini variable from the id, the total milliseconds of the
minimum period and the secondary flag, registers it as component and uart
device, then for each configured automation entry (read with a config.get
default of the empty list) creates the trigger, registers it with the
matching register call and builds the automation. -/
def to_code (config : ComponentConfig) : List CodegenStmt :=
  [.newP1Mini config.id config.minimum_period.total_milliseconds config.secondary_p1,
   .registerComponent config.id,
   .registerUartDevice config.id]
  ++ (config.on_ready_to_receive.getD []).flatMap (fun t =>
       [.newTrigger t, .registerReadyToReceiveTrigger t, .buildAutomation t])
  ++ (config.on_update_received.getD []).flatMap (fun t =>
       [.newTrigger t, .registerUpdateReceivedTrigger t, .buildAutomation t])
  ++ (config.on_communication_error.getD []).flatMap (fun t =>
       [.newTrigger t, .registerCommunicationErrorTrigger t, .buildAutomation t])

/-- The sensor to_code of components/p1_mini/sensor/init.py lines 21-29: it
constructs the P1MiniSensor variable from the id and the obis code, registers
it as component and as sensor entity, and registers it once with the parent
P1Mini component. -/
def sensor_to_code (config : SensorConfig) : List CodegenStmt :=
  [.newP1MiniSensor config.id config.obis_code,
   .registerComponent config.id,
   .registerSensorEntity config.id,
   .registerSensor config.id]

/-- The whole generated setup for one component configuration and its
declared sensors. -/
def setupCode (config : ComponentConfig) (sensors : List SensorConfig) : List CodegenStmt :=
  to_code config ++ sensors.flatMap sensor_to_code

/-- The ready-to-receive trigger registrations among generated statements,
in emission order. -/
def readyRegs (l : List CodegenStmt) : List String :=
  l.filterMap (fun s => match s with
    | .registerReadyToReceiveTrigger t => some t
    | _ => none)

/-- The update-received trigger registrations among generated statements. -/
def updateRegs (l : List CodegenStmt) : List String :=
  l.filterMap (fun s => match s with
    | .registerUpdateReceivedTrigger t => some t
    | _ => none)

/-- The communication-error trigger registrations among generated
statements. -/
def commErrorRegs (l : List CodegenStmt) : List String :=
  l.filterMap (fun s => match s with
    | .registerCommunicationErrorTrigger t => some t
    | _ => none)

/-- The sensor registrations with the parent component among generated
statements. -/
def sensorRegs (l : List CodegenStmt) : List String :=
  l.filterMap (fun s => match s with
    | .registerSensor t => some t
    | _ => none)

/-- Sample subscriber list for the concrete test scenarios. -/
def sampleSubs : List Subscriber := [⟨"1-0:1.8.0", none, none, false⟩]

/-- Sample telegram whose checksum is correct (CRC16 of its bytes is 50161). -/
def goodTelegram : Telegram := ⟨["1-0:1.8.0(00123.456*kWh)"], 50161⟩

/-- The sample telegram with its final checksum hex digit corrupted
(0xC3F1 became 0xC3F0). -/
def badTelegram : Telegram := ⟨["1-0:1.8.0(00123.456*kWh)"], Nat.xor 50161 1⟩

/-- A machine in Validating holding the corrupted telegram. -/
def mValidatingBad : P1Mini :=
  ⟨100, false, .Validating, 0, false, badTelegram, sampleSubs⟩

/-- A machine in Validating holding the intact telegram. -/
def mValidatingGood : P1Mini :=
  ⟨100, false, .Validating, 0, false, goodTelegram, sampleSubs⟩

/-- An idle machine with a 100 millisecond minimum period whose last cycle
ended at time 0. -/
def mIdle : P1Mini := ⟨100, false, .Idle, 0, false, ⟨[], 0⟩, []⟩

/-- A field found by code carries that code, and lookup fails exactly when the
code is absent from the telegram. -/
theorem findField_eq_none_iff (t : Telegram) (c : String) :
    findField t c = none ↔ c ∉ telegramCodes t := by
  unfold findField telegramCodes
  rw [List.find?_eq_none]
  constructor
  · intro h hm
    rcases List.mem_map.mp hm with ⟨f, hf, hc⟩
    exact h f hf (by simp [hc])
  · intro h f hf hb
    exact h (List.mem_map.mpr ⟨f, hf, by simpa using hb⟩)

/-- When the code occurs in the telegram, lookup returns a field with that
code. -/
theorem findField_mem (t : Telegram) (c : String) (h : c ∈ telegramCodes t) :
    ∃ f, findField t c = some f ∧ f.code = c := by
  cases hf : findField t c with
  | none => exact absurd h ((findField_eq_none_iff t c).mp hf)
  | some f =>
    refine ⟨f, rfl, ?_⟩
    have := List.find?_some hf
    simpa using this

/-- C6: encoding the OBIS line 1-0:1.8.0(00123.456*kWh) then parsing yields
code 1-0:1.8.0 with value 00123.456 and unit kWh; the parser fails with
MalformedLine exactly when the OBIS code pattern is absent; and a line that
is a bare code (no value groups) parses to a field with an empty value
list. -/
theorem obis_roundtrip_and_malformed_iff :
    (parseLine (encodeField ⟨"1-0:1.8.0", [⟨"00123.456", some "kWh"⟩]⟩) =
       .ok ⟨"1-0:1.8.0", [⟨"00123.456", some "kWh"⟩]⟩) ∧
    (∀ cs e, parseLineChars cs = .error e → e = .MalformedLine ∧ parseObisCode cs = none) ∧
    (∀ cs, parseObisCode cs = none → parseLineChars cs = .error .MalformedLine) ∧
    (∀ cs c, parseObisCode cs = some (c, []) → parseLineChars cs = .ok ⟨c, []⟩) := by
  refine ⟨rfl, ?_, ?_, ?_⟩
  · intro cs e h
    unfold parseLineChars at h
    cases hp : parseObisCode cs with
    | none => rw [hp] at h; exact ⟨by injection h with h2; exact h2.symm, rfl⟩
    | some p => rw [hp] at h; cases h
  · intro cs h
    unfold parseLineChars
    rw [h]
  · intro cs c h
    unfold parseLineChars
    rw [h]
    rfl

/-- C6 witness: a bare end marker line fails as malformed, and a bare OBIS
code line parses to a field with no values. -/
theorem obis_roundtrip_and_malformed_iff_witness :
    parseLineChars "!".toList = .error .MalformedLine ∧
    parseLineChars "0-0:96.1.1".toList = .ok ⟨"0-0:96.1.1", []⟩ :=
  ⟨obis_roundtrip_and_malformed_iff.2.2.1 "!".toList rfl,
   obis_roundtrip_and_malformed_iff.2.2.2 "0-0:96.1.1".toList "0-0:96.1.1" rfl⟩

/-- C7: validating a component configuration that omits secondary_p1 and
minimum_period succeeds, and the validated configuration carries
secondary_p1 false and a minimum period of zero milliseconds. -/
theorem component_schema_defaults (raw : RawComponentConfig)
    (h1 : raw.secondary_p1 = none) (h2 : raw.minimum_period = none) :
    validateComponentConfig raw =
      some { id := raw.id
             secondary_p1 := false
             minimum_period := ⟨0⟩
             on_ready_to_receive := raw.on_ready_to_receive
             on_update_received := raw.on_update_received
             on_communication_error := raw.on_communication_error } := by
  unfold validateComponentConfig
  rw [h1, h2]
  rfl

/-- C7 witness: the defaults on a fully minimal concrete configuration. -/
theorem component_schema_defaults_witness :
    validateComponentConfig ⟨"p1", none, none, none, none, none⟩ =
      some ⟨"p1", false, ⟨0⟩, none, none, none⟩ :=
  component_schema_defaults ⟨"p1", none, none, none, none, none⟩ rfl rfl

/-- C3: the sensor schema rejects a configuration omitting obis_code, and
accepts a timeout option alongside a string obis_code, preserving it in the
validated configuration. -/
theorem sensor_schema_obis_required_timeout_accepted (raw : RawSensorConfig) :
    (raw.obis_code = none → validateSensorConfig raw = none) ∧
    (∀ s : String, raw.obis_code = some (.str s) →
       validateSensorConfig raw = some ⟨raw.id, raw.p1_mini_id, s, raw.timeout⟩) := by
  constructor
  · intro h
    unfold validateSensorConfig
    rw [h]
  · intro s h
    unfold validateSensorConfig
    rw [h]
    rfl

/-- C3 witness: a concrete sensor configuration with a timeout survives
validation with the timeout intact, and one without obis_code is rejected. -/
theorem sensor_schema_obis_required_timeout_accepted_witness :
    validateSensorConfig ⟨"s1", "p1", some (.str "1-0:1.8.0"), some "3s"⟩ =
      some ⟨"s1", "p1", "1-0:1.8.0", some "3s"⟩ ∧
    validateSensorConfig ⟨"s1", "p1", none, some "3s"⟩ = none :=
  ⟨(sensor_schema_obis_required_timeout_accepted
      ⟨"s1", "p1", some (.str "1-0:1.8.0"), some "3s"⟩).2 "1-0:1.8.0" rfl,
   (sensor_schema_obis_required_timeout_accepted
      ⟨"s1", "p1", none, some "3s"⟩).1 rfl⟩

/-- C9: the obis_code validator returns every string unchanged without
raising, and the sensor schema accepts any string as obis_code, so
syntactically invalid OBIS codes pass configuration validation. -/
theorem obis_code_accepts_any_string (s : String) :
    obis_code (.str s) = .ok s ∧
    (∀ raw : RawSensorConfig, raw.obis_code = some (.str s) →
       ∃ cfg, validateSensorConfig raw = some cfg ∧ cfg.obis_code = s) := by
  constructor
  · rfl
  · intro raw h
    refine ⟨⟨raw.id, raw.p1_mini_id, s, raw.timeout⟩, ?_, rfl⟩
    unfold validateSensorConfig
    rw [h]
    rfl

/-- C9 witness: a string that is not remotely a dotted-numeric OBIS code is
returned unchanged by the validator and passes the sensor schema. -/
theorem obis_code_accepts_any_string_witness :
    obis_code (.str "not an obis code!!") = .ok "not an obis code!!" ∧
    ∃ cfg, validateSensorConfig ⟨"s1", "p1", some (.str "not an obis code!!"), none⟩ = some cfg ∧
      cfg.obis_code = "not an obis code!!" :=
  ⟨(obis_code_accepts_any_string "not an obis code!!").1,
   (obis_code_accepts_any_string "not an obis code!!").2
     ⟨"s1", "p1", some (.str "not an obis code!!"), none⟩ rfl⟩

/-- C10: the generated P1Mini constructor call is the first emitted
statement and takes exactly the total milliseconds of the minimum period
followed by the secondary_p1 flag; the milliseconds value is what
cv.time_period parsed from whatever duration literal the configuration
used. -/
theorem p1mini_constructor_args :
    (∀ config : ComponentConfig,
       (to_code config).head? =
         some (.newP1Mini config.id config.minimum_period.total_milliseconds
                 config.secondary_p1)) ∧
    (∀ (raw : RawComponentConfig) (config : ComponentConfig) (p : String),
       validateComponentConfig raw = some config → raw.minimum_period = some p →
       time_period p = some config.minimum_period) := by
  constructor
  · intro config
    rfl
  · intro raw config p h hp
    unfold validateComponentConfig at h
    rw [hp] at h
    cases htp : time_period ((some p).getD "0s") with
    | none => rw [htp] at h; cases h
    | some tp =>
      rw [htp] at h
      injection h with h2
      rw [← h2]
      simpa using htp

/-- C10 witness: a 150ms literal reaches the constructor as 150, and the
constructor call with its two arguments heads the generated code. -/
theorem p1mini_constructor_args_witness :
    (to_code ⟨"p1", false, ⟨150⟩, none, none, none⟩).head? =
      some (.newP1Mini "p1" 150 false) ∧
    time_period "150ms" = some (⟨150⟩ : TimePeriod) :=
  ⟨p1mini_constructor_args.1 ⟨"p1", false, ⟨150⟩, none, none, none⟩,
   p1mini_constructor_args.2 ⟨"p1", none, some "150ms", none, none, none⟩
     ⟨"p1", false, ⟨150⟩, none, none, none⟩ "150ms" rfl rfl⟩

/-- A flat map producing nothing for every element produces nothing. -/
theorem flatMap_nothing {α β : Type} (l : List α) :
    (l.flatMap fun _ => ([] : List β)) = [] := by
  induction l with
  | nil => rfl
  | cons a l ih => simp [ih]

/-- A flat map producing a singleton per element is a map. -/
theorem flatMap_one {α β : Type} (l : List α) (f : α → β) :
    (l.flatMap fun a => [f a]) = l.map f := by
  induction l with
  | nil => rfl
  | cons a l ih => simp [ih]

/-- C8: the generated setup emits exactly one matching trigger registration
per configured automation entry, per event type and in configuration order,
and exactly one register_sensor call per declared sensor, in declaration
order. -/
theorem one_registration_per_listener (config : ComponentConfig)
    (sensors : List SensorConfig) :
    readyRegs (setupCode config sensors) = config.on_ready_to_receive.getD [] ∧
    updateRegs (setupCode config sensors) = config.on_update_received.getD [] ∧
    commErrorRegs (setupCode config sensors) = config.on_communication_error.getD [] ∧
    sensorRegs (setupCode config sensors) = sensors.map SensorConfig.id := by
  unfold setupCode to_code sensor_to_code readyRegs updateRegs commErrorRegs sensorRegs
  refine ⟨?_, ?_, ?_, ?_⟩ <;>
    simp [List.filterMap_append, List.filterMap_flatMap, List.filterMap_cons,
      flatMap_nothing, flatMap_one]

/-- C1: when checksum validation fails, the step from Validating leaves every
subscriber untouched and fires exactly one communication-error event of kind
ChecksumError; moreover subscribers change only in the Dispatching step, and
Dispatching is only ever entered from Validating with a telegram whose
checksum was just validated, so subscriber state reflects validated
telegrams only. -/
theorem checksum_failure_preserves_subscribers (m : P1Mini) (now : Nat)
    (hs : m.state = .Validating) (hv : checksumValid m.pending = false) :
    step m (.tick now) =
      ({ m with state := .Error, lastCycleEnd := now },
       [.communicationError .ChecksumError]) ∧
    (step m (.tick now)).1.subs = m.subs ∧
    (∀ (m2 : P1Mini) (i : SessionInput),
       (step m2 i).1.subs ≠ m2.subs → m2.state = .Dispatching) ∧
    (∀ (m2 : P1Mini) (i : SessionInput),
       (step m2 i).1.state = .Dispatching →
       m2.state = .Dispatching ∨
       (m2.state = .Validating ∧ checksumValid m2.pending = true ∧
        (step m2 i).1.pending = m2.pending ∧ (step m2 i).1.subs = m2.subs)) := by
  refine ⟨?_, ?_, ?_, ?_⟩
  · simp [step, hs, hv]
  · simp [step, hs, hv]
  · intro m2 i h
    cases i <;> cases h2 : m2.state <;>
      simp [step, h2] at h ⊢ <;>
      first
      | rfl
      | (split at h <;> simp_all)
  · intro m2 i h
    cases i <;> cases h2 : m2.state <;>
      simp [step, h2] at h ⊢ <;>
      first
      | rfl
      | (split at h <;> simp_all)

/-- C1 witness: the sample telegram is checksum-valid, the same telegram with
its final checksum hex digit corrupted fails validation, and stepping the
machine holding the corrupted telegram fires exactly one ChecksumError
communication-error and leaves the subscribers untouched. -/
theorem checksum_failure_preserves_subscribers_witness :
    checksumValid goodTelegram = true ∧
    checksumValid badTelegram = false ∧
    step mValidatingBad (.tick 5) =
      ({ mValidatingBad with state := .Error, lastCycleEnd := 5 },
       [.communicationError .ChecksumError]) ∧
    (step mValidatingBad (.tick 5)).1.subs = mValidatingBad.subs := by
  have h := checksum_failure_preserves_subscribers mValidatingBad 5 rfl (by decide)
  exact ⟨by decide, by decide, h.1, h.2.1⟩

/-- C2: after a successful checksum validation the machine silently enters
Dispatching; the dispatch step then updates exactly those subscribers whose
OBIS code appears in the telegram — matched subscribers get the field value,
the dispatch timestamp and the dirty flag, unmatched subscribers are
returned unchanged — and fires an update-received event and no
communication-error, so unmatched telegram codes are not errors. -/
theorem valid_dispatch_updates_exactly_matching (m : P1Mini) (now now2 : Nat)
    (hs : m.state = .Validating) (hv : checksumValid m.pending = true) :
    step m (.tick now) = ({ m with state := .Dispatching }, []) ∧
    (step { m with state := .Dispatching } (.tick now2)).1.subs =
      m.subs.map (dispatchSub m.pending now2) ∧
    (step { m with state := .Dispatching } (.tick now2)).2 =
      [.updateReceived (matchedCodes m.subs m.pending)] ∧
    (∀ e ∈ (step { m with state := .Dispatching } (.tick now2)).2,
       ∀ k, e ≠ .communicationError k) ∧
    (∀ s : Subscriber, s.code ∉ telegramCodes m.pending →
       dispatchSub m.pending now2 s = s) ∧
    (∀ s : Subscriber, s.code ∈ telegramCodes m.pending →
       ∃ f, findField m.pending s.code = some f ∧ f.code = s.code ∧
         dispatchSub m.pending now2 s =
           { s with
             lastValue := some (fieldValue f)
             lastUpdate := some now2
             dirty := true }) := by
  refine ⟨?_, ?_, ?_, ?_, ?_, ?_⟩
  · simp [step, hs, hv]
  · simp [step]
  · simp [step]
  · intro e he k
    simp [step] at he
    simp [he]
  · intro s hns
    unfold dispatchSub
    rw [(findField_eq_none_iff m.pending s.code).mpr hns]
  · intro s hin
    rcases findField_mem m.pending s.code hin with ⟨f, hf, hfc⟩
    refine ⟨f, hf, hfc, ?_⟩
    unfold dispatchSub
    rw [hf]

/-- C2 witness: on the machine holding the intact sample telegram, validation
silently enters Dispatching, and a subscriber to an absent code is left
unchanged by dispatch. -/
theorem valid_dispatch_updates_exactly_matching_witness :
    step mValidatingGood (.tick 5) = ({ mValidatingGood with state := .Dispatching }, []) ∧
    dispatchSub mValidatingGood.pending 10 ⟨"9-9:9.9.9", none, none, false⟩ =
      ⟨"9-9:9.9.9", none, none, false⟩ := by
  have h := valid_dispatch_updates_exactly_matching mValidatingGood 5 10 rfl (by decide)
  exact ⟨h.1, h.2.2.2.2.1 ⟨"9-9:9.9.9", none, none, false⟩ (by decide)⟩

/-- C4: while the minimum period since the last cycle has not elapsed, an
idle machine rejects both the elapsed-time check and a telegram start,
staying Idle with no event; once the period has elapsed (and, in secondary
mode, the request signal is asserted) the elapsed-time check enters
AwaitingStart and fires the ready-to-receive event; and AwaitingStart is
never entered except by an elapsed-time check from Idle with the period
elapsed. -/
theorem minimum_period_gates_cycle (m : P1Mini) (now : Nat)
    (hs : m.state = .Idle) :
    (now < m.lastCycleEnd + m.minimumPeriodMs →
       step m (.tick now) = (m, []) ∧ step m (.startMarker now) = (m, [])) ∧
    (m.lastCycleEnd + m.minimumPeriodMs ≤ now →
       (m.secondaryP1 = false ∨ m.requested = true) →
       step m (.tick now) =
         ({ m with state := .AwaitingStart, requested := false },
          [.readyToReceive])) ∧
    (∀ (m2 : P1Mini) (i : SessionInput),
       (step m2 i).1.state = .AwaitingStart → m2.state ≠ .AwaitingStart →
       ∃ n2, i = .tick n2 ∧ m2.state = .Idle ∧
         m2.lastCycleEnd + m2.minimumPeriodMs ≤ n2) := by
  refine ⟨?_, ?_, ?_⟩
  · intro hlt
    have hn : ¬ (m.lastCycleEnd + m.minimumPeriodMs ≤ now ∧
        (m.secondaryP1 = false ∨ m.requested = true)) := by
      intro hc
      exact absurd hc.1 (Nat.not_le.mpr hlt)
    constructor
    · simp [step, hs, hn]
    · simp [step, hs]
  · intro hle hmode
    simp [step, hs, hle, hmode]
  · intro m2 i h hne
    cases i <;> cases h2 : m2.state <;>
      simp [step, h2] at h ⊢ <;>
      first
      | exact absurd h2 hne
      | (split at h <;> simp_all)

/-- C4 witness: with a 100 millisecond minimum period and the previous cycle
ending at time 0, both the elapsed-time check and a telegram start at 50
milliseconds are rejected with no event, while the elapsed-time check at 100
milliseconds enters AwaitingStart and fires ready-to-receive. -/
theorem minimum_period_gates_cycle_witness :
    step mIdle (.tick 50) = (mIdle, []) ∧
    step mIdle (.startMarker 50) = (mIdle, []) ∧
    step mIdle (.tick 100) =
      ({ mIdle with state := .AwaitingStart, requested := false },
       [.readyToReceive]) := by
  have h50 := minimum_period_gates_cycle mIdle 50 rfl
  have h100 := minimum_period_gates_cycle mIdle 100 rfl
  exact ⟨(h50.1 (by decide)).1, (h50.1 (by decide)).2,
    h100.2.1 (by decide) (Or.inl rfl)⟩

/-- C5: every step either stays in place, follows the strictly sequential
cycle Idle, AwaitingStart, Collecting, Validating, Dispatching, Idle (with
Error also returning to Idle), or enters Error; an error signal of any kind
moves any state to Error firing the communication-error event, and once the
minimum period has elapsed the Error state returns to Idle, so no error kind
leaves the machine stuck outside Idle. -/
theorem session_transitions_sequential_and_recover :
    (∀ (m : P1Mini) (i : SessionInput),
       (step m i).1.state = m.state ∨ (step m i).1.state = seqNext m.state ∨
       (step m i).1.state = .Error) ∧
    (∀ (m : P1Mini) (k : ErrorKind) (now now2 : Nat),
       (step m (.failure k now)).1.state = .Error ∧
       (step m (.failure k now)).2 = [.communicationError k] ∧
       (now + m.minimumPeriodMs ≤ now2 →
         (step (step m (.failure k now)).1 (.tick now2)).1.state = .Idle)) := by
  constructor
  · intro m i
    cases i <;> cases h2 : m.state <;>
      simp [step, h2, seqNext] <;>
      (split <;> simp [seqNext, h2])
  · intro m k now now2
    refine ⟨by simp [step], by simp [step], ?_⟩
    intro hle
    simp [step, hle]

/-- C5 witness: a Timeout error signal at time 7 puts the idle sample machine
into Error with the event fired, and the elapsed-time check at time 200
returns it to Idle. -/
theorem session_transitions_sequential_and_recover_witness :
    (step mIdle (.failure .Timeout 7)).1.state = .Error ∧
    (step mIdle (.failure .Timeout 7)).2 = [.communicationError .Timeout] ∧
    (step (step mIdle (.failure .Timeout 7)).1 (.tick 200)).1.state = .Idle := by
  have h := session_transitions_sequential_and_recover.2 mIdle .Timeout 7 200
  exact ⟨h.1, h.2.1, h.2.2 (by decide)⟩
